import Mathlib

/-!
# Verification of the COVID-19 data-analysis pipeline

Shallow embedding of the notebook `covid_data_analysis.ipynb`: four CSV
tables are loaded, two of them are cleaned (threshold filter on confirmed
cases, column projection/renaming), aggregates are derived (latest
snapshot at the maximum date, per-region and per-continent group sums,
mortality and per-million rates, top-N selections), and four CSV files
are written.

Tables are lists of records.  Integer cells are `Int` (pandas int64
columns; the sums occurring here are far from overflow), dates are `Nat`
(a date is only compared for equality and order, so any order-embedding
of calendar dates works; we use the numeral `yyyymmdd`), and derived
ratio columns are `ℚ` (the float computations here are a single division
and scaling of exactly-representable integers).
-/

namespace Covid

/-- A row of `full_grouped.csv` as loaded (`full_grouped_df`):
columns Date, Country/Region, Confirmed, Deaths, Recovered, Active,
New cases, New deaths, New recovered, WHO Region. -/
structure FullGroupedRow where
  date : Nat
  country : String
  confirmed : Int
  deaths : Int
  recovered : Int
  active : Int
  newCases : Int
  newDeaths : Int
  newRecovered : Int
  whoRegion : String
deriving Repr, DecidableEq

/-- A row of the cleaned CountryDay table (`full_grouped_relevant`):
only the columns Date, Country/Region, Confirmed, Deaths, Recovered,
Active, WHO Region are kept. -/
structure CountryDayRow where
  date : Nat
  country : String
  confirmed : Int
  deaths : Int
  recovered : Int
  active : Int
  whoRegion : String
deriving Repr, DecidableEq

/-- Column projection performed by
`full_grouped_filtered[['Date', 'Country/Region', 'Confirmed', 'Deaths',
'Recovered', 'Active', 'WHO Region']]`. -/
def projectCountryDay (r : FullGroupedRow) : CountryDayRow :=
  { date := r.date, country := r.country, confirmed := r.confirmed,
    deaths := r.deaths, recovered := r.recovered, active := r.active,
    whoRegion := r.whoRegion }

/-- `full_grouped_filtered = full_grouped_df[full_grouped_df['Confirmed'] >= 15]`
followed by the projection onto the relevant columns. -/
def full_grouped_relevant (l : List FullGroupedRow) : List CountryDayRow :=
  (l.filter (fun r => 15 ≤ r.confirmed)).map projectCountryDay

/-- A row of `worldometer_data.csv` as loaded (`worldometer_df`); the
columns used by the pipeline, plus the unused NewCases and TotalTests
columns which the projection discards. -/
structure WorldometerRow where
  country : String
  continent : String
  population : Int
  totalCases : Int
  newCases : Int
  totalDeaths : Int
  totalRecovered : Int
  activeCases : Int
  totalTests : Int
  whoRegion : String
deriving Repr, DecidableEq

/-- A row of the cleaned CountrySnapshot table (`worldometer_relevant`):
columns Country/Region, Continent, Confirmed, Deaths, Recovered, Active,
WHO Region, Population after the rename TotalCases→Confirmed,
TotalDeaths→Deaths, TotalRecovered→Recovered, ActiveCases→Active. -/
structure CountrySnapshotRow where
  country : String
  continent : String
  confirmed : Int
  deaths : Int
  recovered : Int
  active : Int
  whoRegion : String
  population : Int
deriving Repr, DecidableEq

/-- Projection onto the relevant worldometer columns together with the
`rename(columns={'TotalCases': 'Confirmed', ...})` step.  Every retained
cell value is passed through unchanged. -/
def renameWorldometer (r : WorldometerRow) : CountrySnapshotRow :=
  { country := r.country, continent := r.continent,
    confirmed := r.totalCases, deaths := r.totalDeaths,
    recovered := r.totalRecovered, active := r.activeCases,
    whoRegion := r.whoRegion, population := r.population }

/-- `worldometer_filtered = worldometer_df[worldometer_df['TotalCases'] >= 15]`
followed by projection and rename. -/
def worldometer_relevant (l : List WorldometerRow) : List CountrySnapshotRow :=
  (l.filter (fun r => 15 ≤ r.totalCases)).map renameWorldometer

/-! ## The latest snapshot -/

/-- `latest_date = full_grouped_relevant['Date'].max()`.  On the empty
table the fold returns 0; the notebook never takes this branch (pandas
returns NaN there) and `latest_data` is empty either way. -/
def latest_date (l : List CountryDayRow) : Nat :=
  (l.map (fun r => r.date)).foldr max 0

/-- `latest_data = full_grouped_relevant[full_grouped_relevant['Date'] == latest_date]`. -/
def latest_data (l : List CountryDayRow) : List CountryDayRow :=
  l.filter (fun r => r.date = latest_date l)

/-- A row of full-granularity LatestSnapshot: the cleaned CountryDay
columns plus the per-row Mortality Rate (%) column added in place by
`latest_data['Mortality Rate (%)'] = (latest_data['Deaths'] / latest_data['Confirmed']) * 100`. -/
structure LatestRow where
  date : Nat
  country : String
  confirmed : Int
  deaths : Int
  recovered : Int
  active : Int
  whoRegion : String
  mortalityRate : ℚ
deriving Repr, DecidableEq

/-- The per-row mortality-rate computation. -/
def addMortality (r : CountryDayRow) : LatestRow :=
  { date := r.date, country := r.country, confirmed := r.confirmed,
    deaths := r.deaths, recovered := r.recovered, active := r.active,
    whoRegion := r.whoRegion,
    mortalityRate := (r.deaths : ℚ) / (r.confirmed : ℚ) * 100 }

/-- `latest_data` after the in-place addition of the Mortality Rate (%)
column; this is the version grouped by region and saved to CSV. -/
def latest_data_mr (l : List CountryDayRow) : List LatestRow :=
  (latest_data l).map addMortality

/-! ## Group-by aggregations

pandas `groupby` sorts the group keys, and the notebook afterwards
re-sorts the aggregate tables by descending Confirmed for display; both
steps only permute the aggregate rows, and every property checked below
is invariant under such a permutation, so the embedding enumerates the
keys in order of occurrence via `dedup`. -/

/-- A row of `region_data`: per-WHO-Region sums of the LatestSnapshot
plus the group-level Mortality Rate (%). -/
structure RegionRow where
  whoRegion : String
  confirmed : Int
  deaths : Int
  recovered : Int
  active : Int
  mortalityRate : ℚ
deriving Repr, DecidableEq

/-- The aggregate row for one WHO-Region group `g`: the group is the
set of LatestSnapshot rows whose WHO Region equals `g`, its numeric
columns are summed, and the group-level mortality rate is computed from
the summed values. -/
def regionAgg (l : List LatestRow) (g : String) : RegionRow :=
  let rows := l.filter (fun r => r.whoRegion = g)
  { whoRegion := g,
    confirmed := (rows.map (fun r => r.confirmed)).sum,
    deaths := (rows.map (fun r => r.deaths)).sum,
    recovered := (rows.map (fun r => r.recovered)).sum,
    active := (rows.map (fun r => r.active)).sum,
    mortalityRate :=
      (((rows.map (fun r => r.deaths)).sum : ℤ) : ℚ) /
        (((rows.map (fun r => r.confirmed)).sum : ℤ) : ℚ) * 100 }

/-- `region_data = latest_data.groupby('WHO Region').agg({'Confirmed': 'sum', ...})`
followed by
`region_data['Mortality Rate (%)'] = (region_data['Deaths'] / region_data['Confirmed']) * 100`:
one aggregate row per distinct WHO Region occurring in the input. -/
def region_data (l : List LatestRow) : List RegionRow :=
  ((l.map (fun r => r.whoRegion)).dedup).map (regionAgg l)

/-- A row of `continent_data`: per-Continent sums over the cleaned
CountrySnapshot plus the per-million normalizations. -/
structure ContinentRow where
  continent : String
  confirmed : Int
  deaths : Int
  recovered : Int
  active : Int
  population : Int
  casesPerMillion : ℚ
  deathsPerMillion : ℚ
deriving Repr, DecidableEq

/-- The aggregate row for one Continent group `c` of
`continent_data = worldometer_relevant.groupby('Continent').agg({...})`
followed by
`continent_data['Cases per Million'] = (continent_data['Confirmed'] / continent_data['Population']) * 1000000`
and the analogous Deaths per Million column. -/
def continentAgg (l : List CountrySnapshotRow) (c : String) : ContinentRow :=
  let rows := l.filter (fun r => r.continent = c)
  { continent := c,
    confirmed := (rows.map (fun r => r.confirmed)).sum,
    deaths := (rows.map (fun r => r.deaths)).sum,
    recovered := (rows.map (fun r => r.recovered)).sum,
    active := (rows.map (fun r => r.active)).sum,
    population := (rows.map (fun r => r.population)).sum,
    casesPerMillion :=
      (((rows.map (fun r => r.confirmed)).sum : ℤ) : ℚ) /
        (((rows.map (fun r => r.population)).sum : ℤ) : ℚ) * 1000000,
    deathsPerMillion :=
      (((rows.map (fun r => r.deaths)).sum : ℤ) : ℚ) /
        (((rows.map (fun r => r.population)).sum : ℤ) : ℚ) * 1000000 }

/-- One aggregate row per distinct Continent occurring in the input. -/
def continent_data (l : List CountrySnapshotRow) : List ContinentRow :=
  ((l.map (fun r => r.continent)).dedup).map (continentAgg l)

/-! ## Scenario inputs from the specification -/

/-- Scenario row (2020-01-22, "China", 20, 1, 0, 19, "Western Pacific");
the unprojected columns are zero. -/
def chinaRaw : FullGroupedRow :=
  { date := 20200122, country := "China", confirmed := 20, deaths := 1,
    recovered := 0, active := 19, newCases := 0, newDeaths := 0,
    newRecovered := 0, whoRegion := "Western Pacific" }

/-- Scenario row (2020-01-22, "US", 10, 0, 0, 10, "Americas"). -/
def usRaw : FullGroupedRow :=
  { date := 20200122, country := "US", confirmed := 10, deaths := 0,
    recovered := 0, active := 10, newCases := 0, newDeaths := 0,
    newRecovered := 0, whoRegion := "Americas" }

/-- Scenario worldometer row {Country: "X", TotalCases: 100,
TotalDeaths: 5, TotalRecovered: 90, ActiveCases: 5,
Population: 1_000_000}. -/
def xRaw : WorldometerRow :=
  { country := "X", continent := "Asia", population := 1000000,
    totalCases := 100, newCases := 0, totalDeaths := 5,
    totalRecovered := 90, activeCases := 5, totalTests := 0,
    whoRegion := "South-East Asia" }

/-! ## C5: top-N selections

`df.sort_values(col, ascending=False).head(N)` orders the rows by the
key column in descending order and keeps the first N.  `sort_values` is
called without a `kind` argument, so the default `kind='quicksort'`
applies, and pandas documents only the mergesort/stable kinds as
stable: the order among rows of equal key is implementation-defined.
The embedding is therefore a relation that admits every tie order — a
legal output is any permutation of the rows that is descending in the
key — and no property is claimed that depends on a particular tie
order. -/

/-- The row order produced by `sort_values(col, ascending=False)`:
row `a` may precede row `b` when `b`'s key does not exceed `a`'s. -/
def keyDescOrder {α β : Type} [LinearOrder β] (key : α → β) : α → α → Prop :=
  fun a b => key b ≤ key a

instance {α β : Type} [LinearOrder β] (key : α → β) : IsTotal α (keyDescOrder key) :=
  ⟨fun a b => le_total (key b) (key a)⟩

instance {α β : Type} [LinearOrder β] (key : α → β) : IsTrans α (keyDescOrder key) :=
  ⟨fun _ _ _ hab hbc => le_trans hbc hab⟩

instance {α β : Type} [LinearOrder β] (key : α → β) : DecidableRel (keyDescOrder key) :=
  fun a b => inferInstanceAs (Decidable (key b ≤ key a))

/-- `out` is a possible result of `df.sort_values(col, ascending=False)`
with the default (not stability-guaranteeing) sort kind: a permutation
of the rows that is descending in the key column. -/
def sort_values {α β : Type} [LinearOrder β] (key : α → β) (l out : List α) : Prop :=
  List.Perm out l ∧ out.Sorted (keyDescOrder key)

/-- `out` is a possible result of
`df.sort_values(col, ascending=False).head(n)`: the first `n` rows of
some legal descending ordering of `l`. -/
def top_n_by {α β : Type} [LinearOrder β] (key : α → β) (n : Nat) (l out : List α) : Prop :=
  ∃ s, sort_values key l s ∧ out = s.take n

/-- `top_countries = latest_data.sort_values('Confirmed', ascending=False).head(15)`. -/
def top_countries (latest : List CountryDayRow) (out : List CountryDayRow) : Prop :=
  top_n_by (fun r => r.confirmed) 15 latest out

/-- `top_deaths = latest_data.sort_values('Deaths', ascending=False).head(15)`. -/
def top_deaths (latest : List CountryDayRow) (out : List CountryDayRow) : Prop :=
  top_n_by (fun r => r.deaths) 15 latest out

/-- `mortality_data = latest_data[latest_data['Confirmed'] >= 1000].sort_values('Mortality Rate (%)', ascending=False).head(15)`
(applied to the latest snapshot after the mortality column was added). -/
def mortality_data (latest : List LatestRow) (out : List LatestRow) : Prop :=
  top_n_by (fun r => r.mortalityRate) 15 (latest.filter (fun r => 1000 ≤ r.confirmed)) out

/-- `top_5_countries = latest_data.sort_values('Confirmed', ascending=False).head(5)['Country/Region'].tolist()`. -/
def top_5_countries (latest : List LatestRow) (out : List String) : Prop :=
  ∃ t, top_n_by (fun r => r.confirmed) 5 latest t ∧ out = t.map (fun r => r.country)

/-- The six-row scenario of the specification, with Confirmed values
50, 200, 10, 150, 30, 5 for countries A–F; the scenario rows carry only
a country and a Confirmed value, so the remaining columns are zero. -/
def scenarioSix : List CountryDayRow :=
  [{ date := 0, country := "A", confirmed := 50, deaths := 0, recovered := 0,
     active := 0, whoRegion := "R" },
   { date := 0, country := "B", confirmed := 200, deaths := 0, recovered := 0,
     active := 0, whoRegion := "R" },
   { date := 0, country := "C", confirmed := 10, deaths := 0, recovered := 0,
     active := 0, whoRegion := "R" },
   { date := 0, country := "D", confirmed := 150, deaths := 0, recovered := 0,
     active := 0, whoRegion := "R" },
   { date := 0, country := "E", confirmed := 30, deaths := 0, recovered := 0,
     active := 0, whoRegion := "R" },
   { date := 0, country := "F", confirmed := 5, deaths := 0, recovered := 0,
     active := 0, whoRegion := "R" }]

/-- The unique descending-by-Confirmed ordering of `scenarioSix`
(its Confirmed values are pairwise distinct). -/
def scenarioSorted : List CountryDayRow :=
  [{ date := 0, country := "B", confirmed := 200, deaths := 0, recovered := 0,
     active := 0, whoRegion := "R" },
   { date := 0, country := "D", confirmed := 150, deaths := 0, recovered := 0,
     active := 0, whoRegion := "R" },
   { date := 0, country := "A", confirmed := 50, deaths := 0, recovered := 0,
     active := 0, whoRegion := "R" },
   { date := 0, country := "E", confirmed := 30, deaths := 0, recovered := 0,
     active := 0, whoRegion := "R" },
   { date := 0, country := "C", confirmed := 10, deaths := 0, recovered := 0,
     active := 0, whoRegion := "R" },
   { date := 0, country := "F", confirmed := 5, deaths := 0, recovered := 0,
     active := 0, whoRegion := "R" }]

/-- Two rows that tie on Confirmed, for exhibiting that the sort
relation does not fix the order of equal keys. -/
def tieRowP : CountryDayRow :=
  { date := 0, country := "P", confirmed := 42, deaths := 0, recovered := 0,
    active := 0, whoRegion := "R" }

/-- The second of the two tied rows. -/
def tieRowQ : CountryDayRow :=
  { date := 0, country := "Q", confirmed := 42, deaths := 0, recovered := 0,
    active := 0, whoRegion := "R" }

/-! ## CSV serialization

`to_csv(path, index=False)` writes the header line followed by one line
per row; `read_csv` parses it back.  A file is embedded as the list of
its lines, each line the list of its cell strings: the comma/quote
framing of a single line (fields containing commas or quotes are
quoted) is inverted exactly by the pandas writer/reader pair, so the
embedding works at the granularity of cell strings.  Numeric cells are
rendered in decimal and parsed back. -/

/-- A CSV file: the header line followed by one line of cells per row. -/
abbrev CsvFile := List (List String)

/-- Decimal rendering of a natural-number cell. -/
def natToChars (n : Nat) : List Char :=
  if n = 0 then ['0'] else ((Nat.digits 10 n).map Nat.digitChar).reverse

/-- The numeric value of a digit character. -/
def charToDigit (c : Char) : Nat := c.toNat - 48

/-- Decimal parsing of a natural-number cell. -/
def parseNatChars (s : List Char) : Nat :=
  Nat.ofDigits 10 ((s.map charToDigit).reverse)

/-- Decimal rendering of an integer cell. -/
def intToChars : Int → List Char
  | Int.ofNat n => natToChars n
  | Int.negSucc n => '-' :: natToChars (n + 1)

/-- Decimal parsing of an integer cell. -/
def parseIntChars (s : List Char) : Int :=
  match s with
  | [] => 0
  | c :: rest =>
      if c = '-' then -(parseNatChars rest : Int) else (parseNatChars (c :: rest) : Int)

def csvNat (n : Nat) : String := ⟨natToChars n⟩

def csvInt (i : Int) : String := ⟨intToChars i⟩

def parseNat (s : String) : Nat := parseNatChars s.data

def parseInt (s : String) : Int := parseIntChars s.data

/-! ### The four written tables -/

/-- A row of `day_wise.csv` (`day_wise_df`), Date already parsed by
`pd.to_datetime`: columns Date, Confirmed, Deaths, Recovered, Active,
New cases, New deaths, New recovered. -/
structure DayWiseRow where
  date : Nat
  confirmed : Int
  deaths : Int
  recovered : Int
  active : Int
  newCases : Int
  newDeaths : Int
  newRecovered : Int
deriving Repr, DecidableEq

def dayWiseHeader : List String :=
  ["Date", "Confirmed", "Deaths", "Recovered", "Active",
   "New cases", "New deaths", "New recovered"]

def dayWiseCells (r : DayWiseRow) : List String :=
  [csvNat r.date, csvInt r.confirmed, csvInt r.deaths, csvInt r.recovered,
   csvInt r.active, csvInt r.newCases, csvInt r.newDeaths, csvInt r.newRecovered]

/-- `day_wise_df.to_csv('processed_day_wise.csv', index=False)`. -/
def dayWiseToCsv (l : List DayWiseRow) : CsvFile :=
  dayWiseHeader :: l.map dayWiseCells

def parseDayWiseRow : List String → Option DayWiseRow
  | [d, c, de, rec, a, nc, nd, nr] =>
      some { date := parseNat d, confirmed := parseInt c, deaths := parseInt de,
             recovered := parseInt rec, active := parseInt a, newCases := parseInt nc,
             newDeaths := parseInt nd, newRecovered := parseInt nr }
  | _ => none

/-- `pd.read_csv` on a day-wise file. -/
def dayWiseFromCsv : CsvFile → Option (List DayWiseRow)
  | [] => none
  | header :: rows =>
      if header = dayWiseHeader then rows.mapM parseDayWiseRow else none

def countryDayHeader : List String :=
  ["Date", "Country/Region", "Confirmed", "Deaths", "Recovered", "Active", "WHO Region"]

def countryDayCells (r : CountryDayRow) : List String :=
  [csvNat r.date, r.country, csvInt r.confirmed, csvInt r.deaths,
   csvInt r.recovered, csvInt r.active, r.whoRegion]

/-- `full_grouped_relevant.to_csv('processed_country_wise.csv', index=False)`. -/
def countryDayToCsv (l : List CountryDayRow) : CsvFile :=
  countryDayHeader :: l.map countryDayCells

def parseCountryDayRow : List String → Option CountryDayRow
  | [d, co, c, de, rec, a, w] =>
      some { date := parseNat d, country := co, confirmed := parseInt c,
             deaths := parseInt de, recovered := parseInt rec,
             active := parseInt a, whoRegion := w }
  | _ => none

/-- `pd.read_csv` on a country-day file. -/
def countryDayFromCsv : CsvFile → Option (List CountryDayRow)
  | [] => none
  | header :: rows =>
      if header = countryDayHeader then rows.mapM parseCountryDayRow else none

def countrySnapshotHeader : List String :=
  ["Country/Region", "Continent", "Confirmed", "Deaths", "Recovered", "Active",
   "WHO Region", "Population"]

def countrySnapshotCells (r : CountrySnapshotRow) : List String :=
  [r.country, r.continent, csvInt r.confirmed, csvInt r.deaths,
   csvInt r.recovered, csvInt r.active, r.whoRegion, csvInt r.population]

/-- `worldometer_relevant.to_csv('processed_worldometer.csv', index=False)`. -/
def countrySnapshotToCsv (l : List CountrySnapshotRow) : CsvFile :=
  countrySnapshotHeader :: l.map countrySnapshotCells

def parseCountrySnapshotRow : List String → Option CountrySnapshotRow
  | [co, ct, c, de, rec, a, w, p] =>
      some { country := co, continent := ct, confirmed := parseInt c,
             deaths := parseInt de, recovered := parseInt rec,
             active := parseInt a, whoRegion := w, population := parseInt p }
  | _ => none

/-- `pd.read_csv` on a country-snapshot file. -/
def countrySnapshotFromCsv : CsvFile → Option (List CountrySnapshotRow)
  | [] => none
  | header :: rows =>
      if header = countrySnapshotHeader then rows.mapM parseCountrySnapshotRow else none

/-! ## The pipeline -/

/-- The loaded inputs: the four tables read by `pd.read_csv` in the
first code cell.  The USA county table is loaded and inspected but
never transformed or written, so its rows stay raw cell lists. -/
structure Inputs where
  day_wise : List DayWiseRow
  full_grouped : List FullGroupedRow
  usa_county : List (List String)
  worldometer : List WorldometerRow

/-- The four tables written by the save cell. -/
structure Outputs where
  processed_day_wise : List DayWiseRow
  processed_country_wise : List CountryDayRow
  processed_worldometer : List CountrySnapshotRow
  latest_covid_data : List LatestRow
deriving Repr, DecidableEq

/-- The linear pipeline from loaded tables to written tables:
DailyGlobal is passed through unchanged, CountryDay and CountrySnapshot
are cleaned, and the latest snapshot (with its mortality column) is the
fourth output. -/
def runPipeline (i : Inputs) : Outputs :=
  { processed_day_wise := i.day_wise
    processed_country_wise := full_grouped_relevant i.full_grouped
    processed_worldometer := worldometer_relevant i.worldometer
    latest_covid_data := latest_data_mr (full_grouped_relevant i.full_grouped) }

/-- A run from the four input files.  `pd.read_csv` raises when a file
is missing or unreadable (`none` here); the exception aborts the whole
run before any later cell executes, so the save cell at the end never
runs and no output file is written. -/
def runFromFiles (dayWise : Option (List DayWiseRow))
    (fullGrouped : Option (List FullGroupedRow))
    (usaCounty : Option (List (List String)))
    (worldometerFile : Option (List WorldometerRow)) : Option Outputs :=
  match dayWise, fullGrouped, usaCounty, worldometerFile with
  | some a, some b, some c, some d =>
      some (runPipeline { day_wise := a, full_grouped := b,
                          usa_county := c, worldometer := d })
  | _, _, _, _ => none

/-! ## Theorems -/

/-- Cleaned CountryDay rows satisfy the threshold (helper shared by the
claims below). -/
theorem mem_full_grouped_relevant_confirmed {l : List FullGroupedRow}
    {r : CountryDayRow} (hr : r ∈ full_grouped_relevant l) : 15 ≤ r.confirmed := by
  rcases List.mem_map.mp hr with ⟨s, hs, rfl⟩
  have := (List.mem_filter.mp hs).2
  simpa [projectCountryDay] using of_decide_eq_true this

/-- Cleaned CountrySnapshot rows satisfy the threshold. -/
theorem mem_worldometer_relevant_confirmed {l : List WorldometerRow}
    {r : CountrySnapshotRow} (hr : r ∈ worldometer_relevant l) : 15 ≤ r.confirmed := by
  rcases List.mem_map.mp hr with ⟨s, hs, rfl⟩
  have := (List.mem_filter.mp hs).2
  simpa [renameWorldometer] using of_decide_eq_true this

theorem le_foldr_max {a : Nat} {l : List Nat} (h : a ∈ l) : a ≤ l.foldr max 0 := by
  induction l with
  | nil => cases h
  | cons x t ih =>
    rcases List.mem_cons.mp h with rfl | h
    · exact le_max_left _ _
    · exact le_trans (ih h) (le_max_right _ _)

theorem foldr_max_le {b : Nat} {l : List Nat} (h : ∀ x ∈ l, x ≤ b) :
    l.foldr max 0 ≤ b := by
  induction l with
  | nil => simp
  | cons x t ih =>
    simp only [List.foldr_cons, max_le_iff]
    exact ⟨h x (List.mem_cons_self _ _), ih fun y hy => h y (List.mem_cons_of_mem _ hy)⟩

/-! ## C2: the cleaning threshold -/

/-- C2: after cleaning, every retained CountryDay row and every retained
CountrySnapshot row satisfies Confirmed ≥ 15 (pre-rename TotalCases for
CountrySnapshot); rows below the threshold are dropped and every row
meeting the threshold is kept.  Cleaning the two-row scenario input with
Confirmed values 20 and 10 yields exactly the single row "China" with
Confirmed = 20. -/
theorem cleaning_threshold_c2 :
    (∀ l : List FullGroupedRow, ∀ r ∈ full_grouped_relevant l, 15 ≤ r.confirmed) ∧
    (∀ l : List FullGroupedRow, ∀ r ∈ l, 15 ≤ r.confirmed →
      projectCountryDay r ∈ full_grouped_relevant l) ∧
    (∀ l : List WorldometerRow, ∀ r ∈ worldometer_relevant l, 15 ≤ r.confirmed) ∧
    (∀ l : List WorldometerRow, ∀ r ∈ l, 15 ≤ r.totalCases →
      renameWorldometer r ∈ worldometer_relevant l) ∧
    full_grouped_relevant [chinaRaw, usRaw] =
      [{ date := 20200122, country := "China", confirmed := 20, deaths := 1,
         recovered := 0, active := 19, whoRegion := "Western Pacific" }] := by
  refine ⟨?_, ?_, ?_, ?_, ?_⟩
  · intro l r hr
    rcases List.mem_map.mp hr with ⟨s, hs, rfl⟩
    have := (List.mem_filter.mp hs).2
    simpa [projectCountryDay] using of_decide_eq_true this
  · intro l r hr h15
    exact List.mem_map_of_mem _ (List.mem_filter.mpr ⟨hr, decide_eq_true h15⟩)
  · intro l r hr
    rcases List.mem_map.mp hr with ⟨s, hs, rfl⟩
    have := (List.mem_filter.mp hs).2
    simpa [renameWorldometer] using of_decide_eq_true this
  · intro l r hr h15
    exact List.mem_map_of_mem _ (List.mem_filter.mpr ⟨hr, decide_eq_true h15⟩)
  · decide

/-- Witness for C2: the universally quantified parts applied to the
concrete scenario lists. -/
theorem cleaning_threshold_c2_witness :
    (15 ≤ (projectCountryDay chinaRaw).confirmed) ∧
    projectCountryDay chinaRaw ∈ full_grouped_relevant [chinaRaw, usRaw] ∧
    renameWorldometer xRaw ∈ worldometer_relevant [xRaw] := by
  refine ⟨?_, ?_, ?_⟩
  · exact cleaning_threshold_c2.1 [chinaRaw, usRaw] (projectCountryDay chinaRaw)
      (cleaning_threshold_c2.2.1 [chinaRaw, usRaw] chinaRaw (by decide) (by decide))
  · exact cleaning_threshold_c2.2.1 [chinaRaw, usRaw] chinaRaw (by decide) (by decide)
  · exact cleaning_threshold_c2.2.2.2.1 [xRaw] xRaw (by decide) (by decide)

/-! ## C9: rename and projection preserve cell values -/

/-- C9: cleaning a CountrySnapshot row renames TotalCases→Confirmed,
TotalDeaths→Deaths, TotalRecovered→Recovered, ActiveCases→Active and
projects onto the eight retained columns, leaving every cell value
unchanged; the scenario row with TotalCases 100, TotalDeaths 5,
TotalRecovered 90, ActiveCases 5, Population 1,000,000 yields
Confirmed 100, Deaths 5, Recovered 90, Active 5, Population 1,000,000. -/
theorem rename_projection_c9 :
    (∀ r : WorldometerRow,
      (renameWorldometer r).country = r.country ∧
      (renameWorldometer r).continent = r.continent ∧
      (renameWorldometer r).confirmed = r.totalCases ∧
      (renameWorldometer r).deaths = r.totalDeaths ∧
      (renameWorldometer r).recovered = r.totalRecovered ∧
      (renameWorldometer r).active = r.activeCases ∧
      (renameWorldometer r).whoRegion = r.whoRegion ∧
      (renameWorldometer r).population = r.population) ∧
    renameWorldometer xRaw =
      { country := "X", continent := "Asia", confirmed := 100, deaths := 5,
        recovered := 90, active := 5, whoRegion := "South-East Asia",
        population := 1000000 } := by
  exact ⟨fun r => ⟨rfl, rfl, rfl, rfl, rfl, rfl, rfl, rfl⟩, rfl⟩

/-! ## C1: the latest snapshot selects exactly the maximum date -/

/-- C1: for every cleaned CountryDay table, LatestSnapshot contains
exactly those rows whose Date equals the maximum Date present in the
table: a row is in `latest_data l` iff it is a row of `l` whose date is
at least the date of every row of `l`. -/
theorem latest_snapshot_c1 (l : List CountryDayRow) (r : CountryDayRow) :
    r ∈ latest_data l ↔ r ∈ l ∧ ∀ s ∈ l, s.date ≤ r.date := by
  unfold latest_data
  rw [List.mem_filter]
  constructor
  · rintro ⟨hmem, hd⟩
    have hd' : r.date = latest_date l := of_decide_eq_true hd
    refine ⟨hmem, fun s hs => ?_⟩
    rw [hd']
    exact le_foldr_max (List.mem_map_of_mem _ hs)
  · rintro ⟨hmem, hmax⟩
    refine ⟨hmem, decide_eq_true ?_⟩
    refine le_antisymm (le_foldr_max (List.mem_map_of_mem _ hmem)) (foldr_max_le ?_)
    rintro x hx
    rcases List.mem_map.mp hx with ⟨s, hs, rfl⟩
    exact hmax s hs

/-- Witness for C1: in a two-row table with dates 20200121 and 20200122
the second row belongs to the latest snapshot and the first does not. -/
theorem latest_snapshot_c1_witness :
    ({ date := 20200122, country := "China", confirmed := 548, deaths := 17,
       recovered := 28, active := 503, whoRegion := "Western Pacific" } : CountryDayRow) ∈
      latest_data
        [{ date := 20200121, country := "China", confirmed := 278, deaths := 6,
           recovered := 28, active := 244, whoRegion := "Western Pacific" },
         { date := 20200122, country := "China", confirmed := 548, deaths := 17,
           recovered := 28, active := 503, whoRegion := "Western Pacific" }] := by
  exact (latest_snapshot_c1 _ _).mpr ⟨by decide, by decide⟩

/-! ## C3: the per-region aggregate -/

/-- C3: every WHO Region appearing in LatestSnapshot has an aggregate
row, and every RegionAggregate row carries the exact sums of Confirmed,
Deaths, Recovered and Active over the LatestSnapshot rows sharing its
WHO Region (integer sums, no rounding), with Mortality Rate (%) equal to
the summed Deaths divided by the summed Confirmed times 100. -/
theorem region_aggregate_c3 (l : List LatestRow) :
    (∀ g ∈ l.map (fun r => r.whoRegion), ∃ row ∈ region_data l, row.whoRegion = g) ∧
    (∀ row ∈ region_data l,
      row.confirmed =
        ((l.filter (fun r => r.whoRegion = row.whoRegion)).map (fun r => r.confirmed)).sum ∧
      row.deaths =
        ((l.filter (fun r => r.whoRegion = row.whoRegion)).map (fun r => r.deaths)).sum ∧
      row.recovered =
        ((l.filter (fun r => r.whoRegion = row.whoRegion)).map (fun r => r.recovered)).sum ∧
      row.active =
        ((l.filter (fun r => r.whoRegion = row.whoRegion)).map (fun r => r.active)).sum ∧
      row.mortalityRate =
        ((((l.filter (fun r => r.whoRegion = row.whoRegion)).map (fun r => r.deaths)).sum : ℤ) : ℚ) /
          ((((l.filter (fun r => r.whoRegion = row.whoRegion)).map
            (fun r => r.confirmed)).sum : ℤ) : ℚ) * 100) := by
  constructor
  · intro g hg
    exact ⟨regionAgg l g, List.mem_map_of_mem _ (List.mem_dedup.mpr hg), rfl⟩
  · intro row hrow
    rcases List.mem_map.mp hrow with ⟨g, _, rfl⟩
    exact ⟨rfl, rfl, rfl, rfl, rfl⟩

/-- Witness for C3: the aggregate of the Western Pacific group of the
scenario-derived latest snapshot carries the group sums. -/
theorem region_aggregate_c3_witness :
    (regionAgg (latest_data_mr (full_grouped_relevant [chinaRaw, usRaw])) "Western Pacific").confirmed =
      (((latest_data_mr (full_grouped_relevant [chinaRaw, usRaw])).filter
          (fun r => r.whoRegion =
            (regionAgg (latest_data_mr (full_grouped_relevant [chinaRaw, usRaw]))
              "Western Pacific").whoRegion)).map
        (fun r => r.confirmed)).sum := by
  exact ((region_aggregate_c3 (latest_data_mr (full_grouped_relevant [chinaRaw, usRaw]))).2
    (regionAgg (latest_data_mr (full_grouped_relevant [chinaRaw, usRaw])) "Western Pacific")
    (List.mem_map_of_mem _ (by decide))).1

/-! ## C4: the per-continent aggregate -/

/-- An exact equality is within the 1e-6 floating-point tolerance. -/
theorem abs_sub_le_tol {a b : ℚ} (h : a = b) : |a - b| ≤ 1 / 1000000 := by
  subst h
  rw [sub_self, abs_zero]
  norm_num

/-- C4: every Continent appearing in the cleaned CountrySnapshot table
has an aggregate row whose Cases per Million equals (summed Confirmed /
summed Population) × 1,000,000 — exactly, hence within the 1e-6
tolerance — and whose Deaths per Million is computed analogously from
the summed Deaths and summed Population. -/
theorem continent_aggregate_c4 (l : List CountrySnapshotRow) :
    (∀ c ∈ l.map (fun r => r.continent), ∃ row ∈ continent_data l, row.continent = c) ∧
    (∀ row ∈ continent_data l,
      row.casesPerMillion =
        ((((l.filter (fun r => r.continent = row.continent)).map
            (fun r => r.confirmed)).sum : ℤ) : ℚ) /
          ((((l.filter (fun r => r.continent = row.continent)).map
            (fun r => r.population)).sum : ℤ) : ℚ) * 1000000 ∧
      row.deathsPerMillion =
        ((((l.filter (fun r => r.continent = row.continent)).map
            (fun r => r.deaths)).sum : ℤ) : ℚ) /
          ((((l.filter (fun r => r.continent = row.continent)).map
            (fun r => r.population)).sum : ℤ) : ℚ) * 1000000 ∧
      |row.casesPerMillion -
        ((((l.filter (fun r => r.continent = row.continent)).map
            (fun r => r.confirmed)).sum : ℤ) : ℚ) /
          ((((l.filter (fun r => r.continent = row.continent)).map
            (fun r => r.population)).sum : ℤ) : ℚ) * 1000000| ≤ 1 / 1000000 ∧
      |row.deathsPerMillion -
        ((((l.filter (fun r => r.continent = row.continent)).map
            (fun r => r.deaths)).sum : ℤ) : ℚ) /
          ((((l.filter (fun r => r.continent = row.continent)).map
            (fun r => r.population)).sum : ℤ) : ℚ) * 1000000| ≤ 1 / 1000000) := by
  constructor
  · intro c hc
    exact ⟨continentAgg l c, List.mem_map_of_mem _ (List.mem_dedup.mpr hc), rfl⟩
  · intro row hrow
    rcases List.mem_map.mp hrow with ⟨c, _, rfl⟩
    exact ⟨rfl, rfl, abs_sub_le_tol rfl, abs_sub_le_tol rfl⟩

/-- Witness for C4: the Asia group of the cleaned scenario
CountrySnapshot satisfies the per-million equation. -/
theorem continent_aggregate_c4_witness :
    (continentAgg (worldometer_relevant [xRaw]) "Asia").casesPerMillion =
      (((((worldometer_relevant [xRaw]).filter
          (fun r => r.continent = (continentAgg (worldometer_relevant [xRaw]) "Asia").continent)).map
        (fun r => r.confirmed)).sum : ℤ) : ℚ) /
        (((((worldometer_relevant [xRaw]).filter
            (fun r => r.continent = (continentAgg (worldometer_relevant [xRaw]) "Asia").continent)).map
          (fun r => r.population)).sum : ℤ) : ℚ) * 1000000 := by
  exact ((continent_aggregate_c4 (worldometer_relevant [xRaw])).2
    (continentAgg (worldometer_relevant [xRaw]) "Asia")
    (List.mem_map_of_mem _ (by decide))).1

/-- At least one legal `sort_values` output exists for every input; the
insertion sort here is only a mathematical witness of satisfiability,
not a model of the program's tie order. -/
theorem sort_values_exists {α β : Type} [LinearOrder β] (key : α → β) (l : List α) :
    ∃ s, sort_values key l s :=
  ⟨l.insertionSort (keyDescOrder key),
    List.perm_insertionSort _ l, List.sorted_insertionSort _ l⟩

theorem top_n_by_exists {α β : Type} [LinearOrder β] (key : α → β) (n : Nat) (l : List α) :
    ∃ out, top_n_by key n l out := by
  obtain ⟨s, hs⟩ := sort_values_exists key l
  exact ⟨s.take n, s, hs, rfl⟩

theorem top_n_by_sorted {α β : Type} [LinearOrder β] {key : α → β} {n : Nat}
    {l out : List α} (h : top_n_by key n l out) : out.Sorted (keyDescOrder key) := by
  obtain ⟨s, ⟨_, hsort⟩, rfl⟩ := h
  exact hsort.sublist (List.take_sublist _ _)

theorem top_n_by_length {α β : Type} [LinearOrder β] {key : α → β} {n : Nat}
    {l out : List α} (h : top_n_by key n l out) : out.length = min n l.length := by
  obtain ⟨s, ⟨hp, _⟩, rfl⟩ := h
  rw [List.length_take, hp.length_eq]

theorem top_n_by_subset {α β : Type} [LinearOrder β] {key : α → β} {n : Nat}
    {l out : List α} (h : top_n_by key n l out) : ∀ r ∈ out, r ∈ l := by
  obtain ⟨s, ⟨hp, _⟩, rfl⟩ := h
  intro r hr
  exact hp.subset ((List.take_sublist _ _).subset hr)

/-- Any legal top-N selection dominates the unselected rows: a source
row left out of the selection has a key no larger than every selected
row's key. -/
theorem top_n_by_dominates {α β : Type} [LinearOrder β] {key : α → β} {n : Nat}
    {l out : List α} (h : top_n_by key n l out) :
    ∀ r ∈ out, ∀ q ∈ l, q ∉ out → key q ≤ key r := by
  obtain ⟨s, ⟨hp, hsort⟩, rfl⟩ := h
  intro r hr q hq hqout
  have hqs : q ∈ s := hp.mem_iff.mpr hq
  have hsplit : q ∈ s.take n ∨ q ∈ s.drop n := by
    rw [← List.take_append_drop n s] at hqs
    exact List.mem_append.mp hqs
  rcases hsplit with hq' | hq'
  · exact absurd hq' hqout
  · exact hsort.rel_of_mem_take_of_mem_drop hr hq'

/-- Two descending-ordered permutations of the same rows coincide when
no two distinct rows share a key; a tie-free input therefore determines
the `sort_values` output uniquely, whatever its tie-break behavior. -/
theorem perm_sorted_unique {α β : Type} [LinearOrder β] (key : α → β) :
    ∀ {l₁ l₂ : List α}, List.Perm l₁ l₂ → l₁.Sorted (keyDescOrder key) →
      l₂.Sorted (keyDescOrder key) →
      (∀ a ∈ l₁, ∀ b ∈ l₁, key a = key b → a = b) → l₁ = l₂ := by
  intro l₁
  induction l₁ with
  | nil =>
    intro l₂ hp _ _ _
    exact (hp.symm.eq_nil).symm
  | cons x t ih =>
    intro l₂ hp hs₁ hs₂ hinj
    cases l₂ with
    | nil => exact absurd hp.eq_nil (List.cons_ne_nil _ _)
    | cons y u =>
      have hx2 : x ∈ y :: u := hp.subset (List.mem_cons_self x t)
      have hy1 : y ∈ x :: t := hp.symm.subset (List.mem_cons_self y u)
      have hxy : x = y := by
        rcases List.mem_cons.mp hx2 with h | h
        · exact h
        · rcases List.mem_cons.mp hy1 with h' | h'
          · exact h'.symm
          · have h1 : key x ≤ key y := List.rel_of_sorted_cons hs₂ x h
            have h2 : key y ≤ key x := List.rel_of_sorted_cons hs₁ y h'
            exact hinj x (List.mem_cons_self _ _) y (List.mem_cons_of_mem _ h')
              (le_antisymm h1 h2)
      subst hxy
      have ht : List.Perm t u := hp.cons_inv
      rw [ih ht hs₁.of_cons hs₂.of_cons
        (fun a ha b hb hk => hinj a (List.mem_cons_of_mem _ ha)
          b (List.mem_cons_of_mem _ hb) hk)]

/-- C5, counterexample to the claim as stated: on a two-row input whose
rows tie on Confirmed, the output reversing the two tied rows is a
legal result of `sort_values('Confirmed', ascending=False)` — the
default sort kind guarantees only the descending ordering, not
stability — and it does not preserve the source rows' relative order.
The claimed source-order tie-break is therefore not a property of the
program. -/
theorem topn_tiebreak_c5_counterexample :
    sort_values (fun r : CountryDayRow => r.confirmed) [tieRowP, tieRowQ]
      [tieRowQ, tieRowP] ∧
    [tieRowQ, tieRowP] ≠ [tieRowP, tieRowQ] := by
  refine ⟨⟨by decide, by decide⟩, by decide⟩

/-- C5 (amended): every top-N selection is the first-N head of a
descending sort of its source rows by its key.  A selection always
exists; every legal selection is ordered by descending key, has
min(N, source length) rows, draws its rows from the source, and its
keys dominate the keys of all unselected source rows.  The order among
rows of equal key is not specified by the program (the default sort
kind is not stable), so no tie-break rule is asserted.  The six-row
scenario with Confirmed values 50, 200, 10, 150, 30, 5 has pairwise
distinct keys, so every legal top-5 selection yields the country list
[B, D, A, E, C] in strictly descending Confirmed order. -/
theorem topn_selections_c5 :
    (∀ latest : List CountryDayRow, ∃ out, top_countries latest out) ∧
    (∀ (latest out : List CountryDayRow), top_countries latest out →
      out.Sorted (keyDescOrder (fun r => r.confirmed)) ∧
      out.length = min 15 latest.length ∧
      (∀ r ∈ out, r ∈ latest) ∧
      (∀ r ∈ out, ∀ q ∈ latest, q ∉ out → q.confirmed ≤ r.confirmed)) ∧
    (∀ latest : List CountryDayRow, ∃ out, top_deaths latest out) ∧
    (∀ (latest out : List CountryDayRow), top_deaths latest out →
      out.Sorted (keyDescOrder (fun r => r.deaths)) ∧
      out.length = min 15 latest.length ∧
      (∀ r ∈ out, r ∈ latest) ∧
      (∀ r ∈ out, ∀ q ∈ latest, q ∉ out → q.deaths ≤ r.deaths)) ∧
    (∀ latest : List LatestRow, ∃ out, mortality_data latest out) ∧
    (∀ (latest out : List LatestRow), mortality_data latest out →
      out.Sorted (keyDescOrder (fun r => r.mortalityRate)) ∧
      out.length = min 15 (latest.filter (fun r => 1000 ≤ r.confirmed)).length ∧
      (∀ r ∈ out, r ∈ latest.filter (fun r => 1000 ≤ r.confirmed)) ∧
      (∀ r ∈ out, ∀ q ∈ latest.filter (fun r => 1000 ≤ r.confirmed), q ∉ out →
        q.mortalityRate ≤ r.mortalityRate)) ∧
    (∀ latest : List LatestRow, ∃ out, top_5_countries latest out) ∧
    (∀ out : List CountryDayRow,
      top_n_by (fun r => r.confirmed) 5 scenarioSix out →
      out.map (fun r => r.country) = ["B", "D", "A", "E", "C"]) := by
  refine ⟨fun latest => top_n_by_exists _ 15 latest,
    fun latest out h => ⟨top_n_by_sorted h, top_n_by_length h, top_n_by_subset h,
      top_n_by_dominates h⟩,
    fun latest => top_n_by_exists _ 15 latest,
    fun latest out h => ⟨top_n_by_sorted h, top_n_by_length h, top_n_by_subset h,
      top_n_by_dominates h⟩,
    fun latest => top_n_by_exists (fun r : LatestRow => r.mortalityRate) 15
      (latest.filter (fun r => 1000 ≤ r.confirmed)),
    fun latest out h => ⟨top_n_by_sorted h, top_n_by_length h, top_n_by_subset h,
      top_n_by_dominates h⟩,
    fun latest => ?_, ?_⟩
  · obtain ⟨t, ht⟩ := top_n_by_exists (fun r : LatestRow => r.confirmed) 5 latest
    exact ⟨t.map (fun r => r.country), t, ht, rfl⟩
  · rintro out ⟨s, ⟨hp, hsort⟩, rfl⟩
    have hps : List.Perm s scenarioSorted := hp.trans (by decide)
    have hinj : ∀ a ∈ s, ∀ b ∈ s, a.confirmed = b.confirmed → a = b := by
      have hd : ∀ a ∈ scenarioSix, ∀ b ∈ scenarioSix,
          a.confirmed = b.confirmed → a = b := by decide
      intro a ha b hb
      exact hd a (hp.subset ha) b (hp.subset hb)
    have hs2 : scenarioSorted.Sorted
        (keyDescOrder (fun r : CountryDayRow => r.confirmed)) := by decide
    have hseq : s = scenarioSorted :=
      perm_sorted_unique (fun r : CountryDayRow => r.confirmed) hps hsort hs2 hinj
    rw [hseq]
    decide

/-! ## C10: mortality denominators are positive -/

theorem fifteen_le_sum : ∀ {l : List Int}, l ≠ [] → (∀ x ∈ l, 15 ≤ x) → 15 ≤ l.sum := by
  intro l
  induction l with
  | nil => intro h; exact absurd rfl h
  | cons x t ih =>
    intro _ h
    rcases eq_or_ne t [] with rfl | ht
    · simpa using h x (List.mem_cons_self _ _)
    · have h1 := h x (List.mem_cons_self _ _)
      have h2 := ih ht fun y hy => h y (List.mem_cons_of_mem _ hy)
      simp only [List.sum_cons]
      omega

/-- C10: on every pipeline run, each LatestSnapshot row and each
RegionAggregate row has Confirmed at least 15 (hence strictly positive
and nonzero as a rational), because every contributing row passed the
Confirmed ≥ 15 cleaning filter and group sums of such rows are at least
15; the mortality-rate division by Confirmed is therefore never a
division by zero. -/
theorem mortality_denominator_c10 (raws : List FullGroupedRow) :
    (∀ r ∈ latest_data_mr (full_grouped_relevant raws),
      15 ≤ r.confirmed ∧ 0 < r.confirmed ∧ (r.confirmed : ℚ) ≠ 0) ∧
    (∀ g ∈ region_data (latest_data_mr (full_grouped_relevant raws)),
      15 ≤ g.confirmed ∧ 0 < g.confirmed ∧ (g.confirmed : ℚ) ≠ 0) := by
  have hlat : ∀ r ∈ latest_data_mr (full_grouped_relevant raws), 15 ≤ r.confirmed := by
    intro r hr
    rcases List.mem_map.mp hr with ⟨s, hs, rfl⟩
    exact mem_full_grouped_relevant_confirmed (List.mem_of_mem_filter hs)
  constructor
  · intro r hr
    have h15 := hlat r hr
    exact ⟨h15, by omega, Int.cast_ne_zero.mpr (by omega)⟩
  · intro g hg
    rcases List.mem_map.mp hg with ⟨grp, hgrp, rfl⟩
    rcases List.mem_map.mp (List.mem_dedup.mp hgrp) with ⟨r0, hr0, rfl⟩
    have hr0f : r0 ∈ (latest_data_mr (full_grouped_relevant raws)).filter
        (fun r => r.whoRegion = r0.whoRegion) :=
      List.mem_filter.mpr ⟨hr0, by simp⟩
    have hne : ((latest_data_mr (full_grouped_relevant raws)).filter
        (fun r => r.whoRegion = r0.whoRegion)).map (fun r => r.confirmed) ≠ [] :=
      List.ne_nil_of_mem (List.mem_map_of_mem _ hr0f)
    have hall : ∀ x ∈ ((latest_data_mr (full_grouped_relevant raws)).filter
        (fun r => r.whoRegion = r0.whoRegion)).map (fun r => r.confirmed), 15 ≤ x := by
      intro x hx
      rcases List.mem_map.mp hx with ⟨r, hrf, rfl⟩
      exact hlat r (List.mem_of_mem_filter hrf)
    have h15 : 15 ≤ (regionAgg (latest_data_mr (full_grouped_relevant raws))
        r0.whoRegion).confirmed := fifteen_le_sum hne hall
    exact ⟨h15, by omega, Int.cast_ne_zero.mpr (by omega)⟩

/-- Witness for C10: the scenario pipeline input yields a latest
snapshot row and a region aggregate row with positive Confirmed. -/
theorem mortality_denominator_c10_witness :
    15 ≤ (addMortality ({ date := 20200122, country := "China",
                          confirmed := 20, deaths := 1, recovered := 0,
                          active := 19,
                          whoRegion := "Western Pacific" } : CountryDayRow)).confirmed ∧
    15 ≤ (regionAgg (latest_data_mr (full_grouped_relevant [chinaRaw, usRaw]))
      "Western Pacific").confirmed := by
  constructor
  · exact ((mortality_denominator_c10 [chinaRaw, usRaw]).1 _
      (List.mem_map_of_mem _ (by decide))).1
  · exact ((mortality_denominator_c10 [chinaRaw, usRaw]).2
      (regionAgg (latest_data_mr (full_grouped_relevant [chinaRaw, usRaw])) "Western Pacific")
      (List.mem_map_of_mem _ (by decide))).1

theorem charToDigit_digitChar {d : Nat} (h : d < 10) :
    charToDigit (Nat.digitChar d) = d := by
  interval_cases d <;> rfl

theorem parseNatChars_natToChars (n : Nat) : parseNatChars (natToChars n) = n := by
  unfold natToChars
  split
  · subst ‹n = 0›
    rfl
  · rw [parseNatChars, List.map_reverse, List.reverse_reverse, List.map_map]
    have hmap : (Nat.digits 10 n).map (charToDigit ∘ Nat.digitChar) = Nat.digits 10 n := by
      refine Eq.trans (List.map_congr_left ?_) (List.map_id _)
      intro d hd
      exact charToDigit_digitChar (Nat.digits_lt_base (by norm_num) hd)
    rw [hmap]
    exact Nat.ofDigits_digits 10 n

theorem natToChars_ne_nil (n : Nat) : natToChars n ≠ [] := by
  unfold natToChars
  split
  · simp
  · simp only [ne_eq, List.reverse_eq_nil_iff, List.map_eq_nil_iff]
    exact Nat.digits_ne_nil_iff_ne_zero.mpr ‹¬n = 0›

theorem natToChars_no_minus (n : Nat) : ∀ c ∈ natToChars n, c ≠ '-' := by
  unfold natToChars
  split
  · intro c hc
    simp only [List.mem_singleton] at hc
    subst hc
    decide
  · intro c hc
    rw [List.mem_reverse] at hc
    rcases List.mem_map.mp hc with ⟨d, hd, rfl⟩
    have hlt : d < 10 := Nat.digits_lt_base (by norm_num) hd
    interval_cases d <;> decide

theorem parseIntChars_intToChars (i : Int) : parseIntChars (intToChars i) = i := by
  cases i with
  | ofNat n =>
    show parseIntChars (natToChars n) = (n : Int)
    rcases hn : natToChars n with _ | ⟨c, rest⟩
    · exact absurd hn (natToChars_ne_nil n)
    · have hc : c ≠ '-' := natToChars_no_minus n c (hn ▸ List.mem_cons_self _ _)
      rw [parseIntChars, if_neg hc, ← hn, parseNatChars_natToChars]
  | negSucc n =>
    show parseIntChars ('-' :: natToChars (n + 1)) = Int.negSucc n
    rw [parseIntChars, if_pos rfl, parseNatChars_natToChars]
    rw [Int.negSucc_eq]
    norm_num

theorem parseNat_csvNat (n : Nat) : parseNat (csvNat n) = n :=
  parseNatChars_natToChars n

theorem parseInt_csvInt (i : Int) : parseInt (csvInt i) = i :=
  parseIntChars_intToChars i

theorem parseDayWiseRow_cells (r : DayWiseRow) :
    parseDayWiseRow (dayWiseCells r) = some r := by
  cases r
  simp [parseDayWiseRow, dayWiseCells, parseNat_csvNat, parseInt_csvInt]

theorem parseCountryDayRow_cells (r : CountryDayRow) :
    parseCountryDayRow (countryDayCells r) = some r := by
  cases r
  simp [parseCountryDayRow, countryDayCells, parseNat_csvNat, parseInt_csvInt]

theorem parseCountrySnapshotRow_cells (r : CountrySnapshotRow) :
    parseCountrySnapshotRow (countrySnapshotCells r) = some r := by
  cases r
  simp [parseCountrySnapshotRow, countrySnapshotCells, parseNat_csvNat, parseInt_csvInt]

theorem mapM_parse_map_cells {α : Type} (parse : List String → Option α)
    (cells : α → List String) (h : ∀ r, parse (cells r) = some r) (l : List α) :
    (l.map cells).mapM parse = some l := by
  induction l with
  | nil => rfl
  | cons r t ih =>
    rw [List.map_cons, List.mapM_cons, h r, ih]
    rfl

theorem dayWiseFromCsv_toCsv (l : List DayWiseRow) :
    dayWiseFromCsv (dayWiseToCsv l) = some l := by
  rw [dayWiseToCsv, dayWiseFromCsv, if_pos rfl]
  exact mapM_parse_map_cells _ _ parseDayWiseRow_cells l

theorem countryDayFromCsv_toCsv (l : List CountryDayRow) :
    countryDayFromCsv (countryDayToCsv l) = some l := by
  rw [countryDayToCsv, countryDayFromCsv, if_pos rfl]
  exact mapM_parse_map_cells _ _ parseCountryDayRow_cells l

theorem countrySnapshotFromCsv_toCsv (l : List CountrySnapshotRow) :
    countrySnapshotFromCsv (countrySnapshotToCsv l) = some l := by
  rw [countrySnapshotToCsv, countrySnapshotFromCsv, if_pos rfl]
  exact mapM_parse_map_cells _ _ parseCountrySnapshotRow_cells l

/-! ## C6: CSV round trip for the cleaned tables -/

/-- C6: writing a cleaned table to CSV (header line, one line per row,
no index column) and reloading it yields a table with the same number of
rows and identical values in every retained column. -/
theorem csv_round_trip_c6 (fg : List FullGroupedRow) (wm : List WorldometerRow) :
    countryDayFromCsv (countryDayToCsv (full_grouped_relevant fg)) =
      some (full_grouped_relevant fg) ∧
    (countryDayToCsv (full_grouped_relevant fg)).length =
      (full_grouped_relevant fg).length + 1 ∧
    countrySnapshotFromCsv (countrySnapshotToCsv (worldometer_relevant wm)) =
      some (worldometer_relevant wm) ∧
    (countrySnapshotToCsv (worldometer_relevant wm)).length =
      (worldometer_relevant wm).length + 1 := by
  refine ⟨countryDayFromCsv_toCsv _, by simp [countryDayToCsv],
    countrySnapshotFromCsv_toCsv _, by simp [countrySnapshotToCsv]⟩

/-- Witness for C6: round trip of the cleaned scenario tables. -/
theorem csv_round_trip_c6_witness :
    countryDayFromCsv (countryDayToCsv (full_grouped_relevant [chinaRaw, usRaw])) =
      some (full_grouped_relevant [chinaRaw, usRaw]) :=
  (csv_round_trip_c6 [chinaRaw, usRaw] [xRaw]).1

/-! ## C7: DailyGlobal is written unchanged -/

/-- C7: the table written to `processed_day_wise.csv` is the DailyGlobal
table unchanged: the written file is its serialization with a header row
and no index column, it has the same columns and one line per row in the
same order, and reloading it recovers exactly the loaded table. -/
theorem day_wise_passthrough_c7 (i : Inputs) :
    (runPipeline i).processed_day_wise = i.day_wise ∧
    dayWiseToCsv (runPipeline i).processed_day_wise =
      dayWiseHeader :: i.day_wise.map dayWiseCells ∧
    dayWiseFromCsv (dayWiseToCsv (runPipeline i).processed_day_wise) = some i.day_wise ∧
    (dayWiseToCsv (runPipeline i).processed_day_wise).length = i.day_wise.length + 1 := by
  refine ⟨rfl, rfl, dayWiseFromCsv_toCsv _, by simp [dayWiseToCsv, runPipeline]⟩

/-- Witness for C7 at a concrete one-row input. -/
theorem day_wise_passthrough_c7_witness :
    (runPipeline { day_wise := [{ date := 20200122, confirmed := 555, deaths := 17,
                                  recovered := 28, active := 510, newCases := 0,
                                  newDeaths := 17, newRecovered := 0 }],
                   full_grouped := [chinaRaw, usRaw], usa_county := [],
                   worldometer := [xRaw] }).processed_day_wise =
      [{ date := 20200122, confirmed := 555, deaths := 17, recovered := 28,
         active := 510, newCases := 0, newDeaths := 17, newRecovered := 0 }] :=
  (day_wise_passthrough_c7 _).1

/-! ## C8: a missing input aborts the run with no partial output -/

/-- C8: if any of the four input files is missing or unreadable, the run
fails at the load step and produces no outputs at all — in particular
none of the four output files is written. -/
theorem load_failure_aborts_c8 (dayWise : Option (List DayWiseRow))
    (fullGrouped : Option (List FullGroupedRow))
    (usaCounty : Option (List (List String)))
    (worldometerFile : Option (List WorldometerRow))
    (h : dayWise = none ∨ fullGrouped = none ∨ usaCounty = none ∨ worldometerFile = none) :
    runFromFiles dayWise fullGrouped usaCounty worldometerFile = none := by
  rcases dayWise with _ | a <;> rcases fullGrouped with _ | b <;>
    rcases usaCounty with _ | c <;> rcases worldometerFile with _ | d <;>
    simp [runFromFiles] at h ⊢

/-- Witness for C8: with `full_grouped.csv` missing, the run yields no
outputs. -/
theorem load_failure_aborts_c8_witness :
    runFromFiles (some []) none (some []) (some [xRaw]) = none :=
  load_failure_aborts_c8 (some []) none (some []) (some [xRaw]) (Or.inr (Or.inl rfl))

end Covid
